import Mathlib

/-!
Verification development for the BOM processing backend.

The definitions below are shallow embeddings of the Python source:
- `services/translation_service.py` (translate_to_english)
- `services/gemini_agent_service.py` (extract_all_items, _extract_json_from_markdown)
- `services/gemini_agent_service_backup.py` (extract_all_items, backup variant)
- `services/workflow_service_backup.py` (_apply_classification_logic,
  _extract_and_classify_items, _process_workflow_async, _generate_summary,
  _create_pending_approvals)
- `main_backup.py` (upload_documents endpoint)

External collaborators (the LLM gateway, the JSON library, the document
parser, the relational store) are modelled as oracles passed in as
parameters, and persistence is modelled as an explicit effect log, so the
embedded functions are pure and executable.
-/

namespace Bom

/-- Python/JSON values, as needed to model the gateway responses that the
services inspect (`response.json()` results and their sub-objects). -/
inductive JsonVal where
  | jnull : JsonVal
  | jbool : Bool → JsonVal
  | jnum : Int → JsonVal
  | jstr : String → JsonVal
  | jarr : List JsonVal → JsonVal
  | jobj : List (String × JsonVal) → JsonVal

/-- Dictionary lookup on a JSON object's field list (Python `d[k]` /
`k in d` on a dict; first binding wins, Python dicts have unique keys). -/
def jlookup : List (String × JsonVal) → String → Option JsonVal
  | [], _ => none
  | (k, v) :: rest, key => if k = key then some v else jlookup rest key

/-- Python subscript `x[k]` with a string key: succeeds only on a dict that
has the key; on any other value it raises (TypeError / KeyError), which the
services catch; failure is `none`. -/
def getField : JsonVal → String → Option JsonVal
  | .jobj fs, k => jlookup fs k
  | _, _ => none

/-- Python subscript `x[i]` with an int index: list indexing, or 1-character
string indexing; anything else raises, modelled as `none`. -/
def getIndex : JsonVal → Nat → Option JsonVal
  | .jarr xs, i => xs.get? i
  | .jstr s, i => (s.data.get? i).map (fun c => .jstr (String.mk [c]))
  | _, _ => none

/-- Python truthiness of a JSON value (`not raw_data['choices']`). -/
def jsonTruthy : JsonVal → Bool
  | .jnull => false
  | .jbool b => b
  | .jnum n => n != 0
  | .jstr s => s != ""
  | .jarr xs => !xs.isEmpty
  | .jobj fs => !fs.isEmpty

/-- The navigation `choices[0]['message']['content']` shared by the
services; any shape mismatch raises in Python (caught by the callers),
modelled as `none`. -/
def contentOfChoices (choices : JsonVal) : Option JsonVal :=
  (getIndex choices 0).bind fun c0 =>
    (getField c0 "message").bind fun m => getField m "content"

/-- Embeds `TranslationService.translate_to_english`. The argument
`callResult` is the outcome of `self._call_api(prompt)` followed by
`response.json()`: `Except.error` covers both a failed HTTP round trip
(RuntimeError) and an unparseable response body, both of which raise inside
the `try` block. On success the function returns the raw `content` value
(Python does not coerce it), on any failure it returns the original text. -/
def translate_to_english (callResult : Except String JsonVal) (text : String) : JsonVal :=
  match callResult with
  | .error _ => .jstr text
  | .ok j =>
    match (getField j "choices").bind contentOfChoices with
    | some content => content
    | none => .jstr text

/-- Python `\s` whitespace class (re module, ASCII range). -/
def pyIsSpace (c : Char) : Bool :=
  c = ' ' || c = '\t' || c = '\n' || c = '\r' || c = '\x0b' || c = '\x0c'

/-- Splits a character list at the first occurrence of `pat`, returning the
part before the occurrence and the part after it; `none` when `pat` does not
occur. -/
def splitFirst (pat : List Char) : List Char → Option (List Char × List Char)
  | [] => if pat.isPrefixOf ([] : List Char) then some ([], []) else none
  | c :: rest =>
    if pat.isPrefixOf (c :: rest) then some ([], (c :: rest).drop pat.length)
    else (splitFirst pat rest).map (fun p => (c :: p.1, p.2))

/-- Drops the longest suffix of elements satisfying `p`. -/
def dropTrailingWhile (p : Char → Bool) (l : List Char) : List Char :=
  (l.reverse.dropWhile p).reverse

/-- Embeds `GeminiAgentService._extract_json_from_markdown`: the regex
search for a fenced code block opened by the json fence and closed by a
plain fence, with surrounding whitespace stripped from the captured group
(the lazy group stops at the first closing fence); when no such block
exists the text is returned unchanged. -/
def extract_json_from_markdown (text : String) : String :=
  match splitFirst "```json".data text.data with
  | none => text
  | some (_, afterOpen) =>
    let body := afterOpen.dropWhile pyIsSpace
    match splitFirst "```".data body with
    | none => text
    | some (inner, _) => String.mk (dropTrailingWhile pyIsSpace inner)

/-- The part of `GeminiAgentService.extract_all_items` that digs the
`content` string out of the decoded gateway response: the guard
`if 'choices' not in raw_data or not raw_data['choices']` followed by
`raw_data['choices'][0]['message']['content']`. Every non-conforming shape
either hits the guard's early return or raises inside the `try` block; both
are modelled as `none`. A non-string `content` also yields `none`: the
subsequent `re.search` on it raises, which the caller catches. -/
def responseContentString (raw : JsonVal) : Option String :=
  match raw with
  | .jobj fs =>
    match jlookup fs "choices" with
    | none => none
    | some choices =>
      if jsonTruthy choices then
        match contentOfChoices choices with
        | some (.jstr s) => some s
        | _ => none
      else none
  | _ => none

/-- Embeds `GeminiAgentService.extract_all_items`
(`services/gemini_agent_service.py`). `callResult` is the outcome of
`self._call_api` plus `response.json()`; `loads` is the `json.loads`
library oracle (`Except.error` models JSONDecodeError). -/
def extract_all_items (callResult : Except String JsonVal)
    (loads : String → Except String JsonVal) : List JsonVal :=
  match callResult with
  | .error _ => []
  | .ok raw =>
    match responseContentString raw with
    | none => []
    | some s =>
      match loads (extract_json_from_markdown s) with
      | .error _ => []
      | .ok (.jarr xs) => xs
      | .ok _ => []

/-- Embeds `GeminiAgentService.extract_all_items` from
`services/gemini_agent_service_backup.py`: `json.loads(response.text)` and
the call itself are folded into `callResult`; a decoded list is returned
as-is, anything else (or any exception) yields the empty list. -/
def extract_all_items_backup (callResult : Except String JsonVal) : List JsonVal :=
  match callResult with
  | .error _ => []
  | .ok (.jarr xs) => xs
  | .ok _ => []

/-- True exactly when a `json.loads` outcome is a successfully decoded
JSON array. -/
def parsesToArray : Except String JsonVal → Bool
  | .ok (.jarr _) => true
  | _ => false

/-- A raw item as produced by the extraction agent (`ExtractedItem` before
classification). Python dicts may lack a key (`item.get(...)` yields None,
modelled `none`) or hold an empty string. -/
structure RawItem where
  material_name : Option String
  part_number : Option String
  qty : Option String
  uom : Option String
  vendor_name : Option String
  description : Option String
deriving DecidableEq

/-- An item after `_apply_classification_logic` enriched it in place with
the four classification-derived fields. -/
structure ClassifiedItem where
  item : RawItem
  qa_classification_label : String
  qa_confidence_level : String
  reasoning : String
  action_path : String
deriving DecidableEq

/-- A normalized item-master row (`ItemMasterRow`), as produced by
`doc_parser.parse_item_master`. -/
structure MasterRow where
  material_name : Option String
  part_number : Option String
  description : Option String
  vendor_name : Option String
  uom : Option String
deriving DecidableEq

/-- Python truthiness of an optional string field
(`item.get('part_number')` as a condition). -/
def truthy : Option String → Bool
  | none => false
  | some s => s != ""

/-- Membership of an optional string field in a set of strings
(`item.get('part_number') in item_master_items_pn_set`; in Python, `None`
is simply not a member of a set of strings). -/
def memOf (s : Option String) (strs : List String) : Bool :=
  match s with
  | none => false
  | some t => strs.contains t

/-- The `pn_match` condition of `_apply_classification_logic`. -/
def pn_match_b (item : RawItem) (pn_set : List String) : Bool :=
  truthy item.part_number && memOf item.part_number pn_set

/-- The `name_match` condition of `_apply_classification_logic`. -/
def name_match_b (item : RawItem) (name_set : List String) : Bool :=
  truthy item.material_name && memOf item.material_name name_set

/-- The `qty_present` condition of `_apply_classification_logic`
(`item.get('qty') is not None and item.get('qty') != ''`). -/
def qty_present_b (item : RawItem) : Bool :=
  match item.qty with
  | none => false
  | some q => q != ""

/-- Embeds `WorkflowService._apply_classification_logic`. The Python code
first writes the label-5 defaults into the dict and then overwrites them in
the `if pn_match and qty_present` / `elif not pn_match and name_match`
branches, which is exactly this three-way conditional. -/
def apply_classification_logic (item : RawItem) (pn_set name_set : List String) :
    ClassifiedItem :=
  if pn_match_b item pn_set && qty_present_b item then
    ⟨item, "1", "high", "Match to BOM & Item Master Data", "🟢 Auto-Register"⟩
  else if !pn_match_b item pn_set && name_match_b item name_set then
    ⟨item, "4", "low", "Check for text match in master data",
      "🔴 Human Intervention Required"⟩
  else
    ⟨item, "5", "low", "No match found", "🔴 Human Intervention Required"⟩

/-- The part-number index built in `_extract_and_classify_items`:
`{item['part_number'] for item in item_master_items if item.get('part_number')}`.
The Python set is modelled as a list; only membership is ever used, so
duplicates are irrelevant. Falsy (absent or empty) part numbers are
excluded. -/
def build_pn_set (rows : List MasterRow) : List String :=
  rows.filterMap (fun r =>
    match r.part_number with
    | some s => if s != "" then some s else none
    | none => none)

/-- The material-name index built in `_extract_and_classify_items`, same
construction on `material_name`. -/
def build_name_set (rows : List MasterRow) : List String :=
  rows.filterMap (fun r =>
    match r.material_name with
    | some s => if s != "" then some s else none
    | none => none)

/-- Embeds `WorkflowService._extract_and_classify_items`, with the agent's
`extract_all_items` output supplied as `raw_items`. -/
def extract_and_classify_items (raw_items : List RawItem)
    (item_master_items : List MasterRow) : List ClassifiedItem :=
  let pn_set := build_pn_set item_master_items
  let name_set := build_name_set item_master_items
  raw_items.map (fun it => apply_classification_logic it pn_set name_set)

/-- Python string lowering (`str.lower()` on the ASCII reasonings involved),
character by character. -/
def pyLower (s : String) : String := String.mk (s.data.map Char.toLower)

/-- Python substring containment `pat in s` on character lists. -/
def containsSub (pat l : List Char) : Bool := (splitFirst pat l).isSome

/-- The summary record written into the results artifact. -/
structure Summary where
  total_materials : Nat
  successful_matches : Nat
  knowledge_base_matches : Nat
  comparison_mode : String
deriving DecidableEq

/-- Embeds `WorkflowService._generate_summary` (its list branch; the guard
for a non-list argument cannot arise in the typed embedding, and every item
the pipeline passes in is a dict, so the `isinstance` tests hold). The
counters are the Python `sum(1 for item in items if ...)` generators. -/
def generate_summary (items : List ClassifiedItem) (comparison_mode : String) :
    Summary :=
  { total_materials := items.length
  , successful_matches :=
      (items.map (fun i =>
        if ["high", "medium"].contains i.qa_confidence_level then 1 else 0)).sum
  , knowledge_base_matches :=
      (items.map (fun i =>
        if containsSub "knowledge_base".data (pyLower i.reasoning).data then 1
        else 0)).sum
  , comparison_mode := comparison_mode }

/-- Embeds `WorkflowService._create_pending_approvals`: one
`PendingApprovalModel.add_pending_item` call per match whose confidence is
in the listed set; the result is the list of item payloads inserted, in
order. Every element of the typed list is a dict, so the `isinstance`
guard holds. -/
def create_pending_approvals (ms : List ClassifiedItem) : List ClassifiedItem :=
  ms.filter (fun m => ["low", "high", "medium"].contains m.qa_confidence_level)

/-- One `WorkflowModel.update_workflow_status` call; `progress` and `stage`
are optional keyword arguments the error path omits. -/
structure StatusUpdate where
  status : String
  progress : Option Nat
  stage : Option String
  message : String
deriving DecidableEq

/-- Outcomes of the external calls one run of
`WorkflowService._process_workflow_async` performs, in pipeline order.
`item_path` records whether an item-master file was uploaded; the two
`parse_item_master` calls (the code parses the file twice) get independent
outcomes. The translation stage and the two persistence steps are modelled
as fallible at stage granularity. -/
structure PipelineEnv where
  item_path : Bool
  extract_text_res : Except String String
  parse_item_master_res1 : Except String (List MasterRow)
  translate_res : Except String String
  parse_item_master_res2 : Except String (List MasterRow)
  extract_items_res : Except String (List RawItem)
  save_results_res : Except String Unit
  create_approvals_res : Except String Unit
  comparison_mode : String

/-- The persisted effects of one pipeline run: the ordered log of workflow
status writes, the results artifact (file plus relational row) if written,
and the pending-approval payloads inserted. -/
structure WfState where
  updates : List StatusUpdate
  results_saved : Option (List ClassifiedItem × Summary)
  approvals : List ClassifiedItem
deriving DecidableEq

/-- The first status write of the pipeline (extracting, progress 10). -/
def upd_extracting : StatusUpdate :=
  ⟨"processing", some 10, some "extracting", "Extracting data from documents"⟩

/-- The second status write of the pipeline (translating, progress 30). -/
def upd_translating : StatusUpdate :=
  ⟨"processing", some 30, some "translating", "Translating document to English"⟩

/-- The third status write of the pipeline (classifying, progress 50). -/
def upd_classifying : StatusUpdate :=
  ⟨"processing", some 50, some "classifying",
    "Classifying and matching items with Gemini"⟩

/-- The final status write of a successful pipeline (completed, progress
100). -/
def upd_completed : StatusUpdate :=
  ⟨"completed", some 100, some "completed", "Processing completed successfully"⟩

/-- The status write of the top-level exception handler: status error with a
describing message; the `progress` and `stage` keywords are omitted. -/
def upd_error (e : String) : StatusUpdate :=
  ⟨"error", none, none, "Processing failed: " ++ e⟩

/-- The body of the `try` block of `_process_workflow_async`: runs the
stages in order, stopping at the first raising step; returns the state
persisted so far together with the exception message, if any. -/
def pipeline_body (env : PipelineEnv) : WfState × Option String :=
  let s0 : WfState := ⟨[upd_extracting], none, []⟩
  match env.extract_text_res with
  | .error e => (s0, some e)
  | .ok _wi_content =>
    match (if env.item_path then env.parse_item_master_res1 else .ok []) with
    | .error e => (s0, some e)
    | .ok _ =>
      let s1 := { s0 with updates := s0.updates ++ [upd_translating] }
      match env.translate_res with
      | .error e => (s1, some e)
      | .ok _translated =>
        let s2 := { s1 with updates := s1.updates ++ [upd_classifying] }
        match (if env.item_path then env.parse_item_master_res2 else .ok []) with
        | .error e => (s2, some e)
        | .ok master2 =>
          match env.extract_items_res with
          | .error e => (s2, some e)
          | .ok raw_items =>
            let classified := extract_and_classify_items raw_items master2
            let summary := generate_summary classified env.comparison_mode
            match env.save_results_res with
            | .error e => (s2, some e)
            | .ok _ =>
              let s3 := { s2 with results_saved := some (classified, summary) }
              match env.create_approvals_res with
              | .error e => (s3, some e)
              | .ok _ =>
                let s4 := { s3 with approvals := create_pending_approvals classified }
                (({ s4 with updates := s4.updates ++ [upd_completed] }), none)

/-- Embeds `WorkflowService._process_workflow_async`: the `try` body, with
the single top-level `except` that appends one error status write (no
progress, no stage) and nothing else — no retry, no rollback of persisted
artifacts. -/
def process_workflow_async (env : PipelineEnv) : WfState :=
  match pipeline_body env with
  | (s, none) => s
  | (s, some e) => { s with updates := s.updates ++ [upd_error e] }

/-- The progress values written over a run, in order (writes that omit the
progress keyword write no progress value). -/
def progressTrace (s : WfState) : List Nat :=
  s.updates.filterMap (fun u => u.progress)

/-- The workflow's status after the run: the status of the last write. -/
def finalStatus (s : WfState) : Option String :=
  s.updates.getLast?.map (fun u => u.status)

/-- The HTTP outcome of the upload endpoint: the success JSON body carries
the workflow id, an HTTPException carries a status code and detail only. -/
inductive HttpResult where
  | ok : String → String → HttpResult
  | httpError : Nat → String → HttpResult
deriving DecidableEq

/-- Inputs and oracle outcomes for one call of the
`POST /api/autonomous/upload` handler: whether the optional item-master
upload is present, the requested comparison mode, the uuid the handler
would generate, and the outcome of the file-saving work inside
`start_workflow` before `WorkflowModel.create_workflow` runs. -/
structure UploadEnv where
  item_master_given : Bool
  comparison_mode : String
  fresh_id : String
  save_files_res : Except String Unit

/-- Embeds `WorkflowService.start_workflow`: saving the uploads can raise
(re-raised wrapped in the prefixed message); on success the workflow row is
created and the background task submitted. Returns the ids for which
`WorkflowModel.create_workflow` ran. -/
def start_workflow (env : UploadEnv) : Except String (List String) :=
  match env.save_files_res with
  | .error e => .error ("Failed to start workflow: " ++ e)
  | .ok _ => .ok [env.fresh_id]

/-- Embeds the `upload_documents` handler of `main_backup.py` (the
`wi_document` parameter is required by the framework, so its guard cannot
fire). Returns the HTTP outcome together with the list of workflow ids for
which a workflow row was created during the call. -/
def upload_documents (env : UploadEnv) : HttpResult × List String :=
  if env.comparison_mode = "full" && !env.item_master_given then
    (.httpError 400 "Item Master is required for full comparison mode", [])
  else
    match start_workflow env with
    | .error e => (.httpError 500 ("Failed to start workflow: " ++ e), [])
    | .ok created => (.ok env.fresh_id "Processing started successfully", created)

/-- C1 counterexample: an item whose part number is in the part-number set
and whose quantity is present and non-empty is classified label "1", but its
`action_path` is the string with the green-circle emoji prefix, not the bare
string "Auto-Register" the claim states. -/
theorem rule1_counterexample :
    ("PN-100" ∈ ["PN-100"]) ∧
    (apply_classification_logic
      ⟨some "Grease", some "PN-100", some "5", some "pc", some "Acme", some "d"⟩
      ["PN-100"] []).qa_classification_label = "1" ∧
    (apply_classification_logic
      ⟨some "Grease", some "PN-100", some "5", some "pc", some "Acme", some "d"⟩
      ["PN-100"] []).action_path ≠ "Auto-Register" := by
  decide

/-- C1 (amended): for every item whose part_number is present (non-empty,
per the data model's empty-string default for absent fields) and a member of
the item-master part-number set, and whose qty is present and non-empty, the
classification function returns the item enriched with label "1", confidence
"high", reasoning "Match to BOM & Item Master Data", and action path
"🟢 Auto-Register" (the code prefixes the claimed "Auto-Register" with a
green-circle emoji). -/
theorem rule1_auto_register (item : RawItem) (pn_set name_set : List String)
    (pn : String) (hpn_val : item.part_number = some pn) (hpn_ne : pn ≠ "")
    (hpn_mem : pn ∈ pn_set) (q : String) (hq_val : item.qty = some q)
    (hq_ne : q ≠ "") :
    apply_classification_logic item pn_set name_set =
      ⟨item, "1", "high", "Match to BOM & Item Master Data", "🟢 Auto-Register"⟩ := by
  simp [apply_classification_logic, pn_match_b, qty_present_b, truthy, memOf,
    hpn_val, hq_val, hpn_ne, hq_ne, List.contains, List.elem_eq_mem, hpn_mem]

/-- Witness for C1: the amended Rule 1 theorem applied at the scenario input
of the spec (part number PN-100, quantity 5). -/
theorem rule1_auto_register_witness :
    apply_classification_logic
        ⟨some "Grease", some "PN-100", some "5", some "pc", some "Acme", some "d"⟩
        ["PN-100"] ["Grease"] =
      ⟨⟨some "Grease", some "PN-100", some "5", some "pc", some "Acme", some "d"⟩,
        "1", "high", "Match to BOM & Item Master Data", "🟢 Auto-Register"⟩ :=
  rule1_auto_register _ _ _ "PN-100" rfl (by decide) (by decide) "5" rfl (by decide)

/-- C2 counterexample: an item with no part number whose material name is in
the item-master name set is classified label "4", but its `action_path` is
the string with the red-circle emoji prefix, not the bare string
"Human Intervention Required" the claim states. -/
theorem rule4_counterexample :
    ("Grease" ∈ ["Grease"]) ∧
    (apply_classification_logic ⟨some "Grease", none, some "1", none, none, none⟩
      [] ["Grease"]).qa_classification_label = "4" ∧
    (apply_classification_logic ⟨some "Grease", none, some "1", none, none, none⟩
      [] ["Grease"]).action_path ≠ "Human Intervention Required" := by
  decide

/-- C2 (amended): for every item whose part_number is absent, empty, or not
in the item-master part-number set, but whose material_name is present and a
member of the item-master name set (the name set built by the code contains
only non-empty names), classification returns the item enriched with label
"4", confidence "low", reasoning "Check for text match in master data", and
action path "🔴 Human Intervention Required" (the code prefixes the claimed
"Human Intervention Required" with a red-circle emoji). -/
theorem rule4_human_review (item : RawItem) (pn_set name_set : List String)
    (hpn : ∀ s, item.part_number = some s → s = "" ∨ s ∉ pn_set)
    (m : String) (hm_val : item.material_name = some m) (hm_ne : m ≠ "")
    (hm_mem : m ∈ name_set) :
    apply_classification_logic item pn_set name_set =
      ⟨item, "4", "low", "Check for text match in master data",
        "🔴 Human Intervention Required"⟩ := by
  have hpn_b : pn_match_b item pn_set = false := by
    unfold pn_match_b truthy memOf
    cases hc : item.part_number with
    | none => rfl
    | some s =>
      rcases hpn s hc with h | h
      · simp [h]
      · simp [List.contains, List.elem_eq_mem, h]
  unfold apply_classification_logic
  rw [hpn_b]
  simp [name_match_b, truthy, memOf, hm_val, hm_ne, hm_mem,
    List.contains, List.elem_eq_mem]

/-- Witness for C2: the amended Rule 4 theorem applied at a concrete item
with no part number whose material name is in the name set. -/
theorem rule4_human_review_witness :
    apply_classification_logic ⟨some "Grease", none, some "1", none, none, none⟩
        [] ["Grease"] =
      ⟨⟨some "Grease", none, some "1", none, none, none⟩, "4", "low",
        "Check for text match in master data", "🔴 Human Intervention Required"⟩ :=
  rule4_human_review _ _ _ (fun _ h => nomatch h) "Grease" rfl (by decide) (by decide)

/-- C3 counterexample: an item matching neither rule is classified label "5",
but its `action_path` is the string with the red-circle emoji prefix, not the
bare string "Human Intervention Required" the claim states. -/
theorem default_counterexample :
    (apply_classification_logic ⟨none, none, none, none, none, none⟩ []
      []).qa_classification_label = "5" ∧
    (apply_classification_logic ⟨none, none, none, none, none, none⟩ []
      []).action_path ≠ "Human Intervention Required" := by
  decide

/-- C3 (amended): for every item matching neither Rule 1 (part-number match
with a present quantity) nor Rule 4 (no part-number match but a material-name
match), classification returns the item enriched with label "5", confidence
"low", reasoning "No match found", and action path
"🔴 Human Intervention Required" (the code prefixes the claimed
"Human Intervention Required" with a red-circle emoji). -/
theorem default_no_match (item : RawItem) (pn_set name_set : List String)
    (hr1 : (pn_match_b item pn_set && qty_present_b item) = false)
    (hr4 : (!pn_match_b item pn_set && name_match_b item name_set) = false) :
    apply_classification_logic item pn_set name_set =
      ⟨item, "5", "low", "No match found", "🔴 Human Intervention Required"⟩ := by
  unfold apply_classification_logic
  rw [hr1, hr4]
  simp

/-- Witness for C3: the amended default-rule theorem applied at an item with
no fields at all against empty item-master sets. -/
theorem default_no_match_witness :
    apply_classification_logic ⟨none, none, none, none, none, none⟩ [] [] =
      ⟨⟨none, none, none, none, none, none⟩, "5", "low", "No match found",
        "🔴 Human Intervention Required"⟩ :=
  default_no_match _ _ _ (by decide) (by decide)

/-- C9: submitting a workflow with comparison mode "full" but no reference
(item-master) document fails immediately with HTTP 400 and the detail
"Item Master is required for full comparison mode"; the response carries no
workflow identifier (the error constructor has none) and no workflow row is
created (the created-ids list is empty) — the guard fires before the id is
generated and before `start_workflow` runs. -/
theorem upload_full_requires_master (env : UploadEnv)
    (hmode : env.comparison_mode = "full")
    (hmaster : env.item_master_given = false) :
    upload_documents env =
      (.httpError 400 "Item Master is required for full comparison mode", []) := by
  unfold upload_documents
  rw [hmode, hmaster]
  simp

/-- Witness for C9: the guard theorem applied at a concrete submission in
full mode with no item master. -/
theorem upload_full_requires_master_witness :
    upload_documents ⟨false, "full", "wf-0001", Except.ok ()⟩ =
      (.httpError 400 "Item Master is required for full comparison mode", []) :=
  upload_full_requires_master _ rfl rfl

/-- C6: for every input text, when the upstream translation call fails (a
raised RuntimeError or an unparseable response body) or the decoded response
does not contain the expected choices-message-content structure,
`translate_to_english` returns the original input string unchanged. The
embedded function is total, so translation failure never raises and never
aborts the pipeline. -/
theorem translate_failure_passthrough (callResult : Except String JsonVal)
    (text : String)
    (h : (∃ e, callResult = .error e) ∨
         (∃ j, callResult = .ok j ∧
            (getField j "choices").bind contentOfChoices = none)) :
    translate_to_english callResult text = .jstr text := by
  rcases h with ⟨e, rfl⟩ | ⟨j, rfl, hj⟩
  · rfl
  · simp [translate_to_english, hj]

/-- Witness for C6: the pass-through theorem applied to a failed gateway
call with a Japanese input text. -/
theorem translate_failure_passthrough_witness :
    translate_to_english (.error "API call failed: connection refused") "部品リスト" =
      .jstr "部品リスト" :=
  translate_failure_passthrough _ _ (Or.inl ⟨_, rfl⟩)

/-- A well-formed gateway response whose content string is not valid JSON,
used to exercise the extraction recovery theorem. -/
def malformedContentResponse : JsonVal :=
  .jobj [("choices",
    .jarr [.jobj [("message", .jobj [("content", .jstr "not json at all")])]])]

/-- C7: `extract_all_items` always returns a list, and returns the empty
list whenever the gateway call fails, the decoded response lacks the
expected choices-message-content structure (including a non-string
content), or the content string does not decode (via `json.loads`) to a
JSON array; the backup variant likewise returns the empty list whenever its
decoded response is not a JSON array. -/
theorem extract_all_items_recovers (callResult : Except String JsonVal)
    (loads : String → Except String JsonVal) (r : Except String JsonVal)
    (h : (∃ e, callResult = .error e)
       ∨ (∃ raw, callResult = .ok raw ∧ responseContentString raw = none)
       ∨ (∃ raw s, callResult = .ok raw ∧ responseContentString raw = some s ∧
            parsesToArray (loads (extract_json_from_markdown s)) = false))
    (hr : parsesToArray r = false) :
    extract_all_items callResult loads = [] ∧ extract_all_items_backup r = [] := by
  constructor
  · rcases h with ⟨e, rfl⟩ | ⟨raw, rfl, hraw⟩ | ⟨raw, s, rfl, hs, hl⟩
    · rfl
    · simp [extract_all_items, hraw]
    · simp only [extract_all_items, hs]
      revert hl
      unfold parsesToArray
      cases loads (extract_json_from_markdown s) with
      | error e => intro _; rfl
      | ok v => cases v <;> intro hl <;> first | rfl | exact Bool.noConfusion hl
  · revert hr
    unfold extract_all_items_backup parsesToArray
    cases r with
    | error e => intro _; rfl
    | ok v => cases v <;> intro hr <;> first | rfl | exact Bool.noConfusion hr

/-- Witness for C7: the recovery theorem applied to a structurally valid
response whose content fails JSON decoding, and a backup-service response
that decodes to a JSON object rather than an array. -/
theorem extract_all_items_recovers_witness :
    extract_all_items (Except.ok malformedContentResponse)
        (fun _ => .error "Expecting value: line 1 column 1 (char 0)") = [] ∧
    extract_all_items_backup (Except.ok (.jobj [("a", .jnum 1)])) = [] :=
  extract_all_items_recovers _ _ _
    (Or.inr (Or.inr ⟨malformedContentResponse, "not json at all", rfl, rfl, rfl⟩))
    rfl

/-- Every run of the pipeline body ends in exactly one of five shapes: a
failure after the extracting write, after the translating write, after the
classifying write but before the results artifact, after the results
artifact was persisted, or a full success with all four writes, the results
artifact and the pending approvals. -/
lemma pipeline_body_cases (env : PipelineEnv) :
    (∃ e, pipeline_body env = (⟨[upd_extracting], none, []⟩, some e)) ∨
    (∃ e, pipeline_body env =
      (⟨[upd_extracting, upd_translating], none, []⟩, some e)) ∨
    (∃ e, pipeline_body env =
      (⟨[upd_extracting, upd_translating, upd_classifying], none, []⟩, some e)) ∨
    (∃ e res, pipeline_body env =
      (⟨[upd_extracting, upd_translating, upd_classifying], some res, []⟩,
        some e)) ∨
    (∃ res ap, pipeline_body env =
      (⟨[upd_extracting, upd_translating, upd_classifying, upd_completed],
        some res, ap⟩, none)) := by
  obtain ⟨ip, et, p1, tr, p2, ex, sv, ca, cm⟩ := env
  unfold pipeline_body
  dsimp only
  cases et with
  | error e => exact Or.inl ⟨e, rfl⟩
  | ok wi =>
    rcases hq1 : (if ip = true then p1 else Except.ok ([] : List MasterRow)) with
      e | rows1
    · exact Or.inl ⟨e, rfl⟩
    · cases tr with
      | error e => exact Or.inr (Or.inl ⟨e, rfl⟩)
      | ok t =>
        rcases hq2 : (if ip = true then p2 else Except.ok ([] : List MasterRow)) with
          e | rows2
        · exact Or.inr (Or.inr (Or.inl ⟨e, rfl⟩))
        · cases ex with
          | error e => exact Or.inr (Or.inr (Or.inl ⟨e, rfl⟩))
          | ok raws =>
            cases sv with
            | error e => exact Or.inr (Or.inr (Or.inl ⟨e, rfl⟩))
            | ok u =>
              cases ca with
              | error e => exact Or.inr (Or.inr (Or.inr (Or.inl ⟨e, _, rfl⟩)))
              | ok u2 => exact Or.inr (Or.inr (Or.inr (Or.inr ⟨_, _, rfl⟩)))

/-- C4: if any stage of the background pipeline raises, the single top-level
handler appends exactly one status write — status "error" with the message
"Processing failed: " plus the exception text — and nothing else: no update
ever has status "completed", the error write is the last and only error
write (no retry), and the results artifact and pending approvals persisted
before the failure are left exactly as they were (no rollback). -/
theorem pipeline_error_handling (env : PipelineEnv) (e : String)
    (h : (pipeline_body env).2 = some e) :
    process_workflow_async env =
      { (pipeline_body env).1 with
        updates := (pipeline_body env).1.updates ++ [upd_error e] } ∧
    (process_workflow_async env).updates.all
      (fun u => u.status != "completed") = true ∧
    ((process_workflow_async env).updates.filter
      (fun u => u.status == "error")).length = 1 ∧
    (process_workflow_async env).updates.getLast?.map (fun u => u.status) =
      some "error" ∧
    (process_workflow_async env).results_saved =
      (pipeline_body env).1.results_saved ∧
    (process_workflow_async env).approvals = (pipeline_body env).1.approvals := by
  rcases pipeline_body_cases env with ⟨e', hpe⟩ | ⟨e', hpe⟩ | ⟨e', hpe⟩ |
    ⟨e', res, hpe⟩ | ⟨res, ap, hpe⟩ <;> rw [hpe] at h <;>
    first
    | exact Option.noConfusion h
    | (obtain rfl : e' = e := Option.some.inj h
       refine ⟨by simp [process_workflow_async, hpe], ?_, ?_, ?_, ?_, ?_⟩ <;>
         simp [process_workflow_async, hpe, upd_extracting, upd_translating,
           upd_classifying, upd_completed, upd_error])

/-- A concrete pipeline run whose extraction stage raises. -/
def failingEnv : PipelineEnv :=
  ⟨true, .error "boom", .ok [], .ok "text", .ok [], .ok [], .ok (), .ok (), "full"⟩

/-- Witness for C4: the error-handling theorem applied to a run whose first
stage raises with message "boom". -/
theorem pipeline_error_handling_witness :
    (pipeline_body failingEnv).2 = some "boom" ∧
    (process_workflow_async failingEnv =
      { (pipeline_body failingEnv).1 with
        updates := (pipeline_body failingEnv).1.updates ++ [upd_error "boom"] } ∧
    (process_workflow_async failingEnv).updates.all
      (fun u => u.status != "completed") = true ∧
    ((process_workflow_async failingEnv).updates.filter
      (fun u => u.status == "error")).length = 1 ∧
    (process_workflow_async failingEnv).updates.getLast?.map (fun u => u.status) =
      some "error" ∧
    (process_workflow_async failingEnv).results_saved =
      (pipeline_body failingEnv).1.results_saved ∧
    (process_workflow_async failingEnv).approvals =
      (pipeline_body failingEnv).1.approvals) :=
  ⟨rfl, pipeline_error_handling failingEnv "boom" rfl⟩

/-- C5: over any single run, the progress values written form a prefix of
[10, 30, 50, 100], hence a non-decreasing sequence; the sequence ends at
exactly 100 if and only if the run's final status is "completed"; and when
the final status is anything else (error, or still processing) every written
progress value stays below 100. -/
theorem progress_monotone (env : PipelineEnv) :
    progressTrace (process_workflow_async env) =
      [10, 30, 50, 100].take (progressTrace (process_workflow_async env)).length ∧
    List.Chain' (· ≤ ·) (progressTrace (process_workflow_async env)) ∧
    ((progressTrace (process_workflow_async env)).getLast? = some 100 ↔
      finalStatus (process_workflow_async env) = some "completed") ∧
    (finalStatus (process_workflow_async env) ≠ some "completed" →
      (progressTrace (process_workflow_async env)).all
        (fun p => decide (p < 100)) = true) := by
  rcases pipeline_body_cases env with ⟨e, hpe⟩ | ⟨e, hpe⟩ | ⟨e, hpe⟩ |
    ⟨e, res, hpe⟩ | ⟨res, ap, hpe⟩ <;>
    simp [process_workflow_async, hpe, progressTrace, finalStatus,
      upd_extracting, upd_translating, upd_classifying, upd_completed,
      upd_error, List.Chain']

/-- Value of the Python membership test `conf in ['low', 'high', 'medium']`
as a decidable disjunction, in the order the claim lists the levels. -/
lemma contains_lhm (x : String) :
    (["low", "high", "medium"].contains x) =
      decide (x = "low" ∨ x = "medium" ∨ x = "high") := by
  simp only [List.contains, List.elem_eq_mem, List.mem_cons,
    List.not_mem_nil, or_false]
  exact decide_eq_decide.mpr (by tauto)

/-- Value of the Python membership test `conf in ['high', 'medium']` as a
decidable disjunction. -/
lemma contains_hm (x : String) :
    (["high", "medium"].contains x) =
      decide (x = "high" ∨ x = "medium") := by
  simp only [List.contains, List.elem_eq_mem, List.mem_cons,
    List.not_mem_nil, or_false]

/-- The rule engine assigns every item confidence "high" (Rule 1) or "low"
(Rule 4 and the default rule). -/
lemma classify_confidence (it : RawItem) (pn_set name_set : List String) :
    (apply_classification_logic it pn_set name_set).qa_confidence_level = "high" ∨
    (apply_classification_logic it pn_set name_set).qa_confidence_level = "low" := by
  unfold apply_classification_logic
  split
  · exact Or.inl rfl
  · split
    · exact Or.inr rfl
    · exact Or.inr rfl

/-- C8: the persist stage creates exactly one PendingApproval per classified
item whose confidence is in the set low, medium, high — the inserted
payloads are exactly the filter of the matches by that membership — and
since the rule engine only ever assigns "low" or "high", running it over any
raw-item list yields one pending approval per item: the payload list is the
whole classified list and its length equals the number of raw items. -/
theorem pending_approvals_per_item (ms : List ClassifiedItem)
    (raws : List RawItem) (pn_set name_set : List String) :
    create_pending_approvals ms =
      ms.filter (fun m => decide (m.qa_confidence_level = "low" ∨
        m.qa_confidence_level = "medium" ∨ m.qa_confidence_level = "high")) ∧
    create_pending_approvals
        (raws.map (fun it => apply_classification_logic it pn_set name_set)) =
      raws.map (fun it => apply_classification_logic it pn_set name_set) ∧
    (create_pending_approvals
        (raws.map (fun it => apply_classification_logic it pn_set name_set))).length
      = raws.length := by
  have h2 : create_pending_approvals
      (raws.map (fun it => apply_classification_logic it pn_set name_set)) =
      raws.map (fun it => apply_classification_logic it pn_set name_set) := by
    unfold create_pending_approvals
    apply List.filter_eq_self.mpr
    intro a ha
    obtain ⟨it, _, rfl⟩ := List.mem_map.mp ha
    rcases classify_confidence it pn_set name_set with h | h <;>
      rw [contains_lhm, h] <;> decide
  refine ⟨?_, h2, ?_⟩
  · unfold create_pending_approvals
    exact List.filter_congr (fun m _ => contains_lhm m.qa_confidence_level)
  · rw [h2, List.length_map]

/-- Counting by summing an indicator over a list equals the length of the
filtered list (the Python `sum(1 for item in items if p(item))` idiom). -/
lemma sum_map_ite (p : α → Bool) (l : List α) :
    (l.map (fun a => if p a then (1 : Nat) else 0)).sum = (l.filter p).length := by
  induction l with
  | nil => rfl
  | cons a l ih => cases h : p a <;> simp [h, ih] <;> omega

/-- Soundness of `splitFirst`: a successful split decomposes the list around
an occurrence of the pattern. -/
lemma splitFirst_eq_some (pat : List Char) :
    ∀ l a b, splitFirst pat l = some (a, b) → l = a ++ pat ++ b := by
  intro l
  induction l with
  | nil =>
    intro a b h
    unfold splitFirst at h
    split at h
    · rename_i hp
      have hpat : pat = [] :=
        List.prefix_nil.mp (List.isPrefixOf_iff_prefix.mp hp)
      simp only [Option.some.injEq, Prod.mk.injEq] at h
      obtain ⟨rfl, rfl⟩ := h
      simp [hpat]
    · exact Option.noConfusion h
  | cons c rest ih =>
    intro a b h
    unfold splitFirst at h
    split at h
    · rename_i hp
      simp only [Option.some.injEq, Prod.mk.injEq] at h
      obtain ⟨rfl, rfl⟩ := h
      have := List.prefix_iff_eq_append.mp (List.isPrefixOf_iff_prefix.mp hp)
      simpa using this.symm
    · obtain ⟨⟨a1, b1⟩, hsf, heq⟩ := Option.map_eq_some'.mp h
      simp only [Prod.mk.injEq] at heq
      obtain ⟨rfl, rfl⟩ := heq
      simp [ih a1 b1 hsf]

/-- A list starting with the pattern splits successfully. -/
lemma splitFirst_isSome_of_isPrefixOf (pat l : List Char)
    (h : pat.isPrefixOf l = true) : (splitFirst pat l).isSome = true := by
  cases l with
  | nil => simp [splitFirst, h]
  | cons c rest => simp [splitFirst, h]

/-- Completeness of `splitFirst`: any list containing the pattern splits
successfully. -/
lemma splitFirst_isSome_append (pat : List Char) :
    ∀ l₁ l₂ : List Char, (splitFirst pat (l₁ ++ pat ++ l₂)).isSome = true := by
  intro l₁
  induction l₁ with
  | nil =>
    intro l₂
    apply splitFirst_isSome_of_isPrefixOf
    simpa [List.isPrefixOf_iff_prefix] using List.prefix_append pat l₂
  | cons c cs ih =>
    intro l₂
    show (splitFirst pat (c :: (cs ++ pat ++ l₂))).isSome = true
    unfold splitFirst
    split
    · rfl
    · simpa using ih l₂

/-- Python substring containment holds exactly when the pattern occurs as a
contiguous segment. -/
lemma containsSub_iff (pat l : List Char) :
    containsSub pat l = true ↔ ∃ l₁ l₂, l = l₁ ++ pat ++ l₂ := by
  unfold containsSub
  constructor
  · intro h
    obtain ⟨⟨a, b⟩, hab⟩ := Option.isSome_iff_exists.mp h
    exact ⟨a, b, splitFirst_eq_some pat l a b hab⟩
  · rintro ⟨l₁, l₂, rfl⟩
    exact splitFirst_isSome_append pat l₁ l₂

/-- The code's test — pattern containment in the lower-cased string — is
exactly case-insensitive containment: some contiguous segment of the
original string lowers to the pattern. -/
lemma containsSub_lower_iff (pat : List Char) (r : String) :
    containsSub pat (pyLower r).data = true ↔
      ∃ l₁ mid l₂, r.data = l₁ ++ mid ++ l₂ ∧ mid.map Char.toLower = pat := by
  have hdata : (pyLower r).data = r.data.map Char.toLower := rfl
  rw [hdata, containsSub_iff]
  constructor
  · rintro ⟨a, b, hab⟩
    obtain ⟨u, v, huv, hu, hv⟩ := List.map_eq_append_iff.mp hab
    obtain ⟨u1, u2, h12, hu1, hu2⟩ := List.map_eq_append_iff.mp hu
    exact ⟨u1, u2, v, by rw [huv, h12], hu2⟩
  · rintro ⟨l₁, mid, l₂, hdec, hmid⟩
    refine ⟨l₁.map Char.toLower, l₂.map Char.toLower, ?_⟩
    simp [hdec, hmid]

/-- The rule engine makes the conditions "confidence in {high, medium}" and
"label is 1" coincide: Rule 1 assigns high and label 1; the other rules
assign low with labels 4 and 5. -/
lemma classify_contains_eq_label (it : RawItem) (pn_set name_set : List String) :
    (["high", "medium"].contains
      (apply_classification_logic it pn_set name_set).qa_confidence_level) =
    ((apply_classification_logic it pn_set name_set).qa_classification_label
      == "1") := by
  unfold apply_classification_logic
  split
  · rfl
  · split <;> rfl

/-- C10: the summary written into the results artifact has total_materials
equal to the number of items, successful_matches equal to the number of
items with confidence "high" or "medium", knowledge_base_matches equal to
the number of items whose reasoning contains the substring "knowledge_base"
case-insensitively (the lower-cased containment test the code performs is
exactly case-insensitive containment), and comparison_mode echoing the
submitted mode; for items produced by the rule engine, successful_matches
counts exactly the Rule-1 items (label "1"). -/
theorem summary_counts (items : List ClassifiedItem) (mode : String)
    (raws : List RawItem) (pn_set name_set : List String) (r : String) :
    (generate_summary items mode).total_materials = items.length ∧
    (generate_summary items mode).successful_matches =
      (items.filter (fun i => decide (i.qa_confidence_level = "high" ∨
        i.qa_confidence_level = "medium"))).length ∧
    (generate_summary items mode).knowledge_base_matches =
      (items.filter (fun i =>
        containsSub "knowledge_base".data (pyLower i.reasoning).data)).length ∧
    (containsSub "knowledge_base".data (pyLower r).data = true ↔
      ∃ l₁ mid l₂, r.data = l₁ ++ mid ++ l₂ ∧
        mid.map Char.toLower = "knowledge_base".data) ∧
    (generate_summary items mode).comparison_mode = mode ∧
    (generate_summary
        (raws.map (fun it => apply_classification_logic it pn_set name_set))
        mode).successful_matches =
      ((raws.map (fun it => apply_classification_logic it pn_set name_set)).filter
        (fun i => i.qa_classification_label == "1")).length := by
  refine ⟨rfl, ?_, ?_, containsSub_lower_iff _ r, rfl, ?_⟩
  · show (items.map (fun i : ClassifiedItem =>
        if ["high", "medium"].contains i.qa_confidence_level then (1 : Nat)
        else 0)).sum = _
    rw [sum_map_ite]
    exact congrArg List.length
      (List.filter_congr (fun i _ => contains_hm i.qa_confidence_level))
  · exact sum_map_ite _ items
  · show ((raws.map (fun it => apply_classification_logic it pn_set name_set)).map
        (fun i : ClassifiedItem =>
          if ["high", "medium"].contains i.qa_confidence_level then (1 : Nat)
          else 0)).sum = _
    rw [sum_map_ite]
    refine congrArg List.length (List.filter_congr ?_)
    intro a ha
    obtain ⟨it, _, rfl⟩ := List.mem_map.mp ha
    exact classify_contains_eq_label it pn_set name_set

end Bom
